import Mathlib

/-!
Verification of the booking-to-payment lifecycle of the alx_travel_app
backend (listings/views.py, listings/tasks.py), shallowly embedded in Lean.

Actors are user ids (`Nat`); dates are day ordinals (`Int`), so that the
Python `(check_out - check_in).days` is plain integer subtraction; money is
`Int`. The payment gateway and its configuration state are oracles passed
as explicit arguments, mirroring the dict the Chapa client returns. Email
dispatch (`.delay` calls) is counted in the returned outcome record.
-/

namespace AlxTravel

inductive BookingStatus
  | pending
  | confirmed
  | cancelled
  deriving DecidableEq, Repr

inductive PaymentStatus
  | pending
  | completed
  | failed
  deriving DecidableEq, Repr

structure Listing where
  listing_id : Nat
  host : Nat
  title : String
  location : String
  price_per_night : Int
  is_available : Bool
  deriving DecidableEq, Repr

structure Booking where
  booking_id : Nat
  guest : Nat
  listing : Listing
  check_in_date : Int
  check_out_date : Int
  total_price : Int
  status : BookingStatus
  deriving DecidableEq, Repr

structure Payment where
  payment_id : Nat
  booking : Booking
  amount : Int
  currency : String
  status : PaymentStatus
  chapa_reference : Option String
  transaction_id : Option String
  payment_method : Option String
  error_message : Option String
  deriving DecidableEq, Repr

/-- Python truthiness of an optional string field: `None` and the empty
string are falsy. `views.py` tests `if not payment.chapa_reference` and
`payment.chapa_reference or tx_ref`. -/
def optStrFalsy : Option String → Bool
  | none => true
  | some s => s = ""

/-- Modelled from the spec: `create_payment_for_booking` lives in
`chapa_utils.py`, which is absent from the sources. Spec section 4.1: booking
creation produces "a dependent Payment with status `pending` and amount =
resolved total_price, currency = platform default". -/
def create_payment_for_booking (b : Booking) (pid : Nat) : Payment :=
  { payment_id := pid
    booking := b
    amount := b.total_price
    currency := "ETB"
    status := .pending
    chapa_reference := none
    transaction_id := none
    payment_method := none
    error_message := none }

/-- The `total_price` resolution inside `BookingViewSet.perform_create`
(views.py lines 117-124): `if not total_price and listing:` recompute as
`listing.price_per_night * (check_out - check_in).days`. A supplied price of
`0` is falsy in Python, so it is recomputed too; the listing is a resolved
model instance, hence always truthy. -/
def resolveTotalPrice (listing : Listing) (provided : Option Int)
    (check_in check_out : Int) : Int :=
  match provided with
  | none => listing.price_per_night * (check_out - check_in)
  | some tp => if tp = 0 then listing.price_per_night * (check_out - check_in) else tp

/-- `BookingViewSet.perform_create` (views.py lines 110-129): saves the
Booking with the current user as guest and the resolved total price, then
creates the dependent Payment. The `pending` initial Booking status is the
model default (`models.py` is absent from the sources; spec section 4.1:
"new Booking with status `pending`"). -/
def perform_create (guest : Nat) (listing : Listing) (check_in check_out : Int)
    (provided : Option Int) (bid pid : Nat) : Booking × Payment :=
  let total := resolveTotalPrice listing provided check_in check_out
  let b : Booking :=
    { booking_id := bid
      guest := guest
      listing := listing
      check_in_date := check_in
      check_out_date := check_out
      total_price := total
      status := .pending }
  (b, create_payment_for_booking b pid)

inductive CreateBookingResult
  | created (b : Booking) (p : Payment)
  | invalidRange
  deriving DecidableEq, Repr

/-- Modelled from the spec: the date-range validation lives in
`BookingSerializer` (`serializers.py`), absent from the sources. Spec
section 4.1: CreateBooking "Fails with `InvalidRange` if check_out ≤
check_in"; on validation failure `perform_create` never runs, so neither a
Booking nor a Payment is created. -/
def createBooking (guest : Nat) (listing : Listing) (check_in check_out : Int)
    (provided : Option Int) (bid pid : Nat) : CreateBookingResult :=
  if check_out ≤ check_in then .invalidRange
  else
    let bp := perform_create guest listing check_in check_out provided bid pid
    .created bp.1 bp.2

inductive BookingActionResult
  | ok (b : Booking)
  | forbidden
  | invalidTransition (st : BookingStatus)
  deriving DecidableEq, Repr

/-- `BookingViewSet.cancel` (views.py lines 148-168): PermissionDenied unless
the actor is the booking's guest or the listing's host; 400 unless the status
is in `['pending', 'confirmed']`; otherwise sets status to `cancelled`. -/
def cancel (booking : Booking) (actor : Nat) : BookingActionResult :=
  if booking.guest ≠ actor ∧ booking.listing.host ≠ actor then .forbidden
  else if booking.status ≠ .pending ∧ booking.status ≠ .confirmed then
    .invalidTransition booking.status
  else .ok { booking with status := .cancelled }

/-- `BookingViewSet.confirm` (views.py lines 170-190): PermissionDenied unless
the actor is the listing's host; 400 unless the status is `pending`;
otherwise sets status to `confirmed`. -/
def confirm (booking : Booking) (actor : Nat) : BookingActionResult :=
  if booking.listing.host ≠ actor then .forbidden
  else if booking.status ≠ .pending then .invalidTransition booking.status
  else .ok { booking with status := .confirmed }

/-- Modelled from the spec: `update_payment_status` lives in
`chapa_utils.py`, absent from the sources. Spec section 5: a status mutation
is "wrapped in a transaction that also persists any dependent field changes
atomically (e.g., status + transaction_id + payment_method together)": it
writes the given status together with whichever keyword fields the caller
supplies (`none` means the field was not passed and keeps its value). -/
def update_payment_status (p : Payment) (st : PaymentStatus)
    (chapa_ref txid method err : Option String) : Payment :=
  { p with
    status := st
    chapa_reference := match chapa_ref with | some r => some r | none => p.chapa_reference
    transaction_id := match txid with | some t => some t | none => p.transaction_id
    payment_method := match method with | some m => some m | none => p.payment_method
    error_message := match err with | some e => some e | none => p.error_message }

/-- Modelled from the spec: `ChapaAPIClient.__init__` lives in
`chapa_utils.py`, absent from the sources. Spec section 7: "a misconfigured
gateway (missing credentials)" raises the `ValueError` that the views catch
as a configuration error; otherwise construction succeeds. -/
inductive ChapaClientConfig
  | configured
  | misconfigured (msg : String)
  deriving DecidableEq, Repr

/-- Oracle for `ChapaAPIClient.initiate_payment`: the dict it returns has
either `success: True` with a checkout URL and a reference, or
`success: False` with an error message. -/
inductive GatewayInit
  | ok (checkout_url reference : String)
  | err (msg : String)
  deriving DecidableEq, Repr

/-- Oracle for `ChapaAPIClient.verify_payment`: `success: True` carries the
gateway status string plus reference/method/amount fields, `success: False`
carries an error message. -/
inductive GatewayVerify
  | ok (st : String) (reference method : Option String) (amount received_amount : Int)
  | err (msg : String)
  deriving DecidableEq, Repr

inductive InitiateResponse
  | forbidden
  | invalidTransition (st : PaymentStatus)
  | success (checkout_url payment_id : String) (amount : Int) (currency : String)
  | gatewayFailed (msg : String)
  | configError (msg : String)
  deriving DecidableEq, Repr

structure InitiateOutcome where
  payment : Payment
  response : InitiateResponse
  gatewayCalled : Bool
  deriving DecidableEq, Repr

/-- `BookingViewSet.initiate_payment` (views.py lines 192-267) on an existing
Payment: PermissionDenied unless the actor is the booking's guest; 400 unless
the Payment status is `pending`; then the Chapa client is constructed (a
`ValueError` there is caught as a configuration error before any gateway
call) and the gateway is called. On gateway success the reference is stored
with status kept `pending` and `{checkout_url, payment_id, amount, currency}`
is returned; on gateway failure the status is set to `failed` with the error
message recorded and the error returned. -/
def initiate_payment (booking : Booking) (payment : Payment) (actor : Nat)
    (cfg : ChapaClientConfig) (gw : GatewayInit) : InitiateOutcome :=
  if booking.guest ≠ actor then ⟨payment, .forbidden, false⟩
  else if payment.status ≠ .pending then
    ⟨payment, .invalidTransition payment.status, false⟩
  else
    match cfg with
    | .misconfigured m => ⟨payment, .configError m, false⟩
    | .configured =>
      match gw with
      | .ok url ref =>
        let p := update_payment_status payment .pending (some ref) none none none
        ⟨p, .success url (toString payment.payment_id) payment.amount payment.currency, true⟩
      | .err m =>
        let p := update_payment_status payment .failed none none none (some m)
        ⟨p, .gatewayFailed m, true⟩

/-- Python `str.lower()` applied to the gateway status string. -/
def lowerStr (s : String) : String := ⟨s.data.map Char.toLower⟩

inductive VerifyResponse
  | forbidden
  | notInitiated
  | completed (transaction_id : Option String)
  | failed
  | stillPending
  | verifyFailed (msg : String)
  | configError (msg : String)
  deriving DecidableEq, Repr

structure VerifyOutcome where
  payment : Payment
  response : VerifyResponse
  gatewayCalled : Bool
  successEmails : Nat
  failureEmails : Nat
  deriving DecidableEq, Repr

/-- `PaymentViewSet.verify_status` (views.py lines 299-407): PermissionDenied
unless the actor is the booking's guest or the listing's host; 400 "Payment
has not been initiated yet." when `chapa_reference` is falsy, before any
gateway interaction; a `ValueError` from the client constructor is caught as
a distinct configuration error; otherwise `verify_payment` is called and the
lowercased gateway status is dispatched on: `success` writes status
`completed` with transaction_id/payment_method and queues the confirmation
email, `failed` writes status `failed` with an error message and queues the
failure email, anything else mutates nothing. The email counters count the
`.delay` calls made. -/
def verify_status (payment : Payment) (actor : Nat)
    (cfg : ChapaClientConfig) (gw : GatewayVerify) : VerifyOutcome :=
  if payment.booking.guest ≠ actor ∧ payment.booking.listing.host ≠ actor then
    ⟨payment, .forbidden, false, 0, 0⟩
  else if optStrFalsy payment.chapa_reference then
    ⟨payment, .notInitiated, false, 0, 0⟩
  else
    match cfg with
    | .misconfigured m => ⟨payment, .configError m, false, 0, 0⟩
    | .configured =>
      match gw with
      | .err m => ⟨payment, .verifyFailed m, true, 0, 0⟩
      | .ok st reference method _ _ =>
        if lowerStr st = "success" then
          let p := update_payment_status payment .completed none reference method none
          ⟨p, .completed reference, true, 1, 0⟩
        else if lowerStr st = "failed" then
          let p := update_payment_status payment .failed none none none
            (some "Payment failed on Chapa")
          ⟨p, .failed, true, 0, 1⟩
        else ⟨payment, .stillPending, true, 0, 0⟩

structure CallbackOutcome where
  payment : Payment
  response : VerifyResponse
  gatewayCalled : Bool
  referenceUsed : String
  successEmails : Nat
  deriving DecidableEq, Repr

/-- `PaymentViewSet.verify` (views.py lines 409-498), the unauthenticated
gateway-callback endpoint, after the Payment has been resolved from the
caller-supplied `tx_ref`: the gateway is queried with
`payment.chapa_reference or tx_ref`, so a never-initiated Payment falls back
to `tx_ref`. Gateway `success` writes `completed` and queues the confirmation
email; `failed` writes `failed` (no failure email is sent here); anything
else mutates nothing. Exceptions (including a client-construction
`ValueError`) are caught by the single generic handler and returned as an
error. -/
def verify_callback (payment : Payment) (tx_ref : String)
    (cfg : ChapaClientConfig) (gw : GatewayVerify) : CallbackOutcome :=
  let ref := match payment.chapa_reference with
    | some s => if s = "" then tx_ref else s
    | none => tx_ref
  match cfg with
  | .misconfigured m => ⟨payment, .verifyFailed m, false, ref, 0⟩
  | .configured =>
    match gw with
    | .err m => ⟨payment, .verifyFailed m, true, ref, 0⟩
    | .ok st reference method _ _ =>
      if lowerStr st = "success" then
        let p := update_payment_status payment .completed none reference method none
        ⟨p, .completed reference, true, ref, 1⟩
      else if lowerStr st = "failed" then
        let p := update_payment_status payment .failed none none none (some "Payment failed")
        ⟨p, .failed, true, ref, 0⟩
      else ⟨payment, .stillPending, true, ref, 0⟩

/-- `@shared_task(bind=True, max_retries=3)` on the email tasks
(tasks.py lines 16, 126, 257). -/
def max_retries : Nat := 3

/-- The backoff passed to `self.retry`: `countdown=60 * (2 ** self.request.retries)`
(tasks.py lines 123, 254, 350). -/
def retryCountdown (retries : Nat) : Nat := 60 * 2 ^ retries

inductive TaskResult
  | sent (attempts : Nat)
  | gaveUpLogged (attempts : Nat)
  deriving DecidableEq, Repr

def TaskResult.attempts : TaskResult → Nat
  | .sent n => n
  | .gaveUpLogged n => n

/-- One Celery execution of an email task under the `bind=True,
max_retries=3` policy of tasks.py: attempt number `r` (0-based, `fuel`
bounds the recursion at `max_retries + 1` attempts) either sends, or logs
the error and calls `self.retry` — which re-queues with the next retry count
while `r < max_retries` and otherwise stops for good (the failure stays in
the worker's log and is never surfaced to the view that called `.delay`).
`failsAt r` says whether `send_mail` raises on attempt `r`. -/
def runEmailTaskAux (failsAt : Nat → Bool) : Nat → Nat → TaskResult
  | _, 0 => .gaveUpLogged 0
  | r, fuel + 1 =>
    if failsAt r then
      if r < max_retries then runEmailTaskAux failsAt (r + 1) fuel
      else .gaveUpLogged (r + 1)
    else .sent (r + 1)

def runEmailTask (failsAt : Nat → Bool) : TaskResult :=
  runEmailTaskAux failsAt 0 (max_retries + 1)

/-! Concrete fixtures used by witnesses and counterexamples. -/

def listingA : Listing :=
  { listing_id := 10
    host := 2
    title := "Sunny Villa"
    location := "Addis Ababa"
    price_per_night := 100
    is_available := true }

def bookingA : Booking :=
  { booking_id := 1
    guest := 1
    listing := listingA
    check_in_date := 0
    check_out_date := 3
    total_price := 300
    status := .pending }

def bookingCancelled : Booking := { bookingA with status := .cancelled }

def paymentPending : Payment :=
  { payment_id := 7
    booking := bookingA
    amount := 300
    currency := "ETB"
    status := .pending
    chapa_reference := none
    transaction_id := none
    payment_method := none
    error_message := none }

def paymentInitiated : Payment :=
  { paymentPending with chapa_reference := some "CHAPA-REF-1" }

def paymentFailed : Payment := { paymentInitiated with status := .failed }

def gwSuccess : GatewayVerify := .ok "success" (some "TX1") (some "test-card") 300 300

/-- C2: a booking created without an explicit total_price gets total_price =
price_per_night × nights (nights = check_out − check_in in days, nights ≥ 1),
and the dependent Payment is created with that amount and status pending. -/
theorem C2_create_booking_price (guest : Nat) (listing : Listing)
    (check_in check_out : Int) (bid pid : Nat) (h : check_in < check_out) :
    ∃ b p, createBooking guest listing check_in check_out none bid pid = .created b p ∧
      b.total_price = listing.price_per_night * (check_out - check_in) ∧
      p.amount = listing.price_per_night * (check_out - check_in) ∧
      p.status = .pending ∧ b.status = .pending := by
  have hne : ¬ check_out ≤ check_in := not_le.mpr h
  refine ⟨(perform_create guest listing check_in check_out none bid pid).1,
          (perform_create guest listing check_in check_out none bid pid).2,
          ?_, rfl, rfl, rfl, rfl⟩
  simp only [createBooking, if_neg hne]

/-- Witness for C2 at the spec scenario: check_in day 0 (2025-06-01),
check_out day 3 (2025-06-04), price_per_night 100 → total_price 300 and a
pending Payment of amount 300. -/
theorem C2_create_booking_price_witness :
    ((0 : Int) < 3 ∧
      ∃ b p, createBooking 1 listingA 0 3 none 1 7 = .created b p ∧
        b.total_price = listingA.price_per_night * (3 - 0) ∧
        p.amount = listingA.price_per_night * (3 - 0) ∧
        p.status = .pending ∧ b.status = .pending) ∧
    createBooking 1 listingA 0 3 none 1 7 = .created bookingA paymentPending :=
  ⟨⟨by decide, C2_create_booking_price 1 listingA 0 3 1 7 (by decide)⟩, by decide⟩

/-- C3: a CreateBooking request with check_out_date ≤ check_in_date always
fails with InvalidRange, creating neither a Booking nor a Payment. -/
theorem C3_invalid_range (guest : Nat) (listing : Listing)
    (check_in check_out : Int) (provided : Option Int) (bid pid : Nat)
    (h : check_out ≤ check_in) :
    createBooking guest listing check_in check_out provided bid pid = .invalidRange := by
  simp only [createBooking, if_pos h]

/-- Witness for C3 at check_in = check_out = day 3. -/
theorem C3_invalid_range_witness :
    (3 : Int) ≤ 3 ∧ createBooking 1 listingA 3 3 none 2 8 = .invalidRange :=
  ⟨by decide, C3_invalid_range 1 listingA 3 3 none 2 8 (by decide)⟩

/-- C4: Cancel fails with Forbidden unless the actor is the booking's guest
or the listing's host; fails with InvalidTransition unless the status is
pending or confirmed; never succeeds on an already-cancelled Booking; and on
success sets the status to cancelled. -/
theorem C4_cancel_guards (b : Booking) (a : Nat) :
    (b.guest ≠ a → b.listing.host ≠ a → cancel b a = .forbidden) ∧
    ((b.guest = a ∨ b.listing.host = a) →
      b.status ≠ .pending → b.status ≠ .confirmed →
      cancel b a = .invalidTransition b.status) ∧
    (b.status = .cancelled → ∀ b', cancel b a ≠ .ok b') ∧
    (∀ b', cancel b a = .ok b' → b'.status = .cancelled) := by
  refine ⟨?_, ?_, ?_, ?_⟩
  · intro h1 h2
    simp [cancel, h1, h2]
  · intro hauth h1 h2
    rcases hauth with h | h <;> simp [cancel, h, h1, h2]
  · intro hc b' hok
    unfold cancel at hok
    split at hok
    · exact BookingActionResult.noConfusion hok
    · split at hok
      · exact BookingActionResult.noConfusion hok
      · rename_i hst
        rw [hc] at hst
        exact hst ⟨by decide, by decide⟩
  · intro b' hok
    unfold cancel at hok
    split at hok
    · exact BookingActionResult.noConfusion hok
    · split at hok
      · exact BookingActionResult.noConfusion hok
      · injection hok with hb
        rw [← hb]

/-- Witness for C4: a stranger (actor 99) is refused, and on the cancelled
fixture no actor-1 call can succeed. -/
theorem C4_cancel_guards_witness :
    (bookingA.guest ≠ 99 ∧ bookingA.listing.host ≠ 99 ∧
      cancel bookingA 99 = .forbidden) ∧
    (bookingCancelled.status = .cancelled ∧
      cancel bookingCancelled 1 ≠ .ok bookingA) :=
  ⟨⟨by decide, by decide, (C4_cancel_guards bookingA 99).1 (by decide) (by decide)⟩,
   ⟨rfl, (C4_cancel_guards bookingCancelled 1).2.2.1 rfl bookingA⟩⟩

/-- C5: Confirm succeeds (setting status confirmed) exactly when the status
is pending and the actor is the listing's host; a non-host actor gets
Forbidden, a host on a non-pending Booking gets InvalidTransition, and a
failed call leaves the Booking unchanged (no saved state is produced). -/
theorem C5_confirm_guards (b : Booking) (a : Nat) :
    (b.listing.host = a → b.status = .pending →
      confirm b a = .ok { b with status := .confirmed }) ∧
    (b.listing.host ≠ a → confirm b a = .forbidden) ∧
    (b.listing.host = a → b.status ≠ .pending →
      confirm b a = .invalidTransition b.status) ∧
    (∀ b', confirm b a = .ok b' →
      b.listing.host = a ∧ b.status = .pending ∧ b'.status = .confirmed) := by
  refine ⟨?_, ?_, ?_, ?_⟩
  · intro h1 h2
    simp [confirm, h1, h2]
  · intro h1
    simp [confirm, h1]
  · intro h1 h2
    simp [confirm, h1, h2]
  · intro b' hok
    unfold confirm at hok
    split at hok
    · exact BookingActionResult.noConfusion hok
    · split at hok
      · exact BookingActionResult.noConfusion hok
      · rename_i hhost hst
        injection hok with hb
        refine ⟨by omega, by simpa using hst, ?_⟩
        rw [← hb]

/-- Witness for C5: the host (actor 2) confirms the pending fixture; actor 1
(the guest) is refused; the host cannot confirm the cancelled fixture. -/
theorem C5_confirm_guards_witness :
    confirm bookingA 2 = .ok { bookingA with status := .confirmed } ∧
    confirm bookingA 1 = .forbidden ∧
    confirm bookingCancelled 2 = .invalidTransition .cancelled :=
  ⟨(C5_confirm_guards bookingA 2).1 rfl rfl,
   (C5_confirm_guards bookingA 1).2.1 (by decide),
   (C5_confirm_guards bookingCancelled 2).2.2.1 rfl (by decide)⟩

/-- C6: InitiatePayment on a Payment whose status is not pending fails with
InvalidTransition before any gateway call (the client is only constructed
after the status guard), and any actor other than the booking's guest is
refused with Forbidden, also without a gateway call; in both cases the
Payment is returned unchanged. -/
theorem C6_initiate_guards (bk : Booking) (p : Payment) (a : Nat)
    (cfg : ChapaClientConfig) (gw : GatewayInit) :
    (bk.guest ≠ a → initiate_payment bk p a cfg gw = ⟨p, .forbidden, false⟩) ∧
    (bk.guest = a → p.status ≠ .pending →
      initiate_payment bk p a cfg gw = ⟨p, .invalidTransition p.status, false⟩) := by
  constructor
  · intro h1
    simp [initiate_payment, h1]
  · intro h1 h2
    simp [initiate_payment, h1, h2]

/-- Witness for C6: initiating on the failed fixture as the guest yields
InvalidTransition with no gateway call, and a stranger (actor 99) is
refused. -/
theorem C6_initiate_guards_witness :
    initiate_payment bookingA paymentFailed 1 .configured (.ok "u" "r") =
      ⟨paymentFailed, .invalidTransition .failed, false⟩ ∧
    initiate_payment bookingA paymentPending 99 .configured (.ok "u" "r") =
      ⟨paymentPending, .forbidden, false⟩ :=
  ⟨(C6_initiate_guards bookingA paymentFailed 1 .configured (.ok "u" "r")).2
      rfl (by decide),
   (C6_initiate_guards bookingA paymentPending 99 .configured (.ok "u" "r")).1
      (by decide)⟩

/-- C7: InitiatePayment by the guest on a pending Payment: on gateway
success the gateway reference is stored, the status stays pending, and the
caller receives checkout_url, payment_id, amount and currency; on gateway
failure the status becomes failed with the error message recorded and the
error is returned. -/
theorem C7_initiate_outcomes (bk : Booking) (p : Payment) (a : Nat)
    (h1 : bk.guest = a) (h2 : p.status = .pending) :
    (∀ url ref,
      initiate_payment bk p a .configured (.ok url ref) =
        ⟨{ p with status := .pending, chapa_reference := some ref },
         .success url (toString p.payment_id) p.amount p.currency, true⟩) ∧
    (∀ m,
      initiate_payment bk p a .configured (.err m) =
        ⟨{ p with status := .failed, error_message := some m },
         .gatewayFailed m, true⟩) := by
  constructor
  · intro url ref
    simp [initiate_payment, update_payment_status, h1, h2]
  · intro m
    simp [initiate_payment, update_payment_status, h1, h2]

/-- Witness for C7 on the pending fixture: success stores the reference and
keeps the status pending; failure records the error and marks the Payment
failed. -/
theorem C7_initiate_outcomes_witness :
    initiate_payment bookingA paymentPending 1 .configured
        (.ok "https://checkout.chapa.co/x" "REF-9") =
      ⟨{ paymentPending with status := .pending, chapa_reference := some "REF-9" },
       .success "https://checkout.chapa.co/x" (toString paymentPending.payment_id)
         paymentPending.amount paymentPending.currency, true⟩ ∧
    initiate_payment bookingA paymentPending 1 .configured (.err "network down") =
      ⟨{ paymentPending with status := .failed, error_message := some "network down" },
       .gatewayFailed "network down", true⟩ :=
  ⟨(C7_initiate_outcomes bookingA paymentPending 1 rfl rfl).1
      "https://checkout.chapa.co/x" "REF-9",
   (C7_initiate_outcomes bookingA paymentPending 1 rfl rfl).2 "network down"⟩

/-- C8: a VerifyPayment call whose outcome is not a terminal gateway verdict
leaves the Payment unmutated and surfaces a distinguishable result: a
gateway status other than success/failed yields the still-pending response,
a gateway-client error is returned as an error, and a misconfigured client
is reported as a configuration error distinct from the other two, before any
gateway call. -/
theorem C8_verify_nonterminal (p : Payment) (a : Nat)
    (hauth : p.booking.guest = a ∨ p.booking.listing.host = a)
    (href : optStrFalsy p.chapa_reference = false) :
    (∀ st reference method amt ramt,
      lowerStr st ≠ "success" → lowerStr st ≠ "failed" →
      verify_status p a .configured (.ok st reference method amt ramt) =
        ⟨p, .stillPending, true, 0, 0⟩) ∧
    (∀ m, verify_status p a .configured (.err m) = ⟨p, .verifyFailed m, true, 0, 0⟩) ∧
    (∀ m gw, verify_status p a (.misconfigured m) gw =
      ⟨p, .configError m, false, 0, 0⟩) ∧
    (∀ m m', VerifyResponse.configError m ≠ VerifyResponse.verifyFailed m' ∧
      VerifyResponse.configError m ≠ VerifyResponse.stillPending) := by
  have hne : ¬(p.booking.guest ≠ a ∧ p.booking.listing.host ≠ a) := by
    rcases hauth with h | h <;> simp [h]
  refine ⟨?_, ?_, ?_, ?_⟩
  · intro st reference method amt ramt hs hf
    simp [verify_status, hne, href, hs, hf]
  · intro m
    simp [verify_status, hne, href]
  · intro m gw
    simp [verify_status, hne, href]
  · intro m m'
    exact ⟨by simp, by simp⟩

/-- Witness for C8 on the initiated fixture: gateway status "pending", a
client error, and a misconfigured client all leave the Payment unchanged and
return three mutually distinguishable responses. -/
theorem C8_verify_nonterminal_witness :
    verify_status paymentInitiated 1 .configured (.ok "pending" none none 0 0) =
      ⟨paymentInitiated, .stillPending, true, 0, 0⟩ ∧
    verify_status paymentInitiated 1 .configured (.err "timeout") =
      ⟨paymentInitiated, .verifyFailed "timeout", true, 0, 0⟩ ∧
    verify_status paymentInitiated 1 (.misconfigured "CHAPA_SECRET_KEY missing")
        (.ok "success" none none 0 0) =
      ⟨paymentInitiated, .configError "CHAPA_SECRET_KEY missing", false, 0, 0⟩ :=
  ⟨(C8_verify_nonterminal paymentInitiated 1 (Or.inl rfl) rfl).1
      "pending" none none 0 0 (by decide) (by decide),
   (C8_verify_nonterminal paymentInitiated 1 (Or.inl rfl) rfl).2.1 "timeout",
   (C8_verify_nonterminal paymentInitiated 1 (Or.inl rfl) rfl).2.2.1
      "CHAPA_SECRET_KEY missing" (.ok "success" none none 0 0)⟩

/-- C10: on a Payment whose gateway reference was never set, the
authenticated verify_status rejects with the not-initiated error before any
gateway call, while the unauthenticated callback endpoint falls back to the
caller-supplied tx_ref as the gateway reference and does call the
gateway. -/
theorem C10_uninitiated_divergence (p : Payment) (a : Nat) (tx : String)
    (cfg : ChapaClientConfig) (gw : GatewayVerify)
    (hauth : p.booking.guest = a ∨ p.booking.listing.host = a)
    (hnone : p.chapa_reference = none) :
    verify_status p a cfg gw = ⟨p, .notInitiated, false, 0, 0⟩ ∧
    (verify_callback p tx .configured gw).gatewayCalled = true ∧
    (verify_callback p tx .configured gw).referenceUsed = tx := by
  have hne : ¬(p.booking.guest ≠ a ∧ p.booking.listing.host ≠ a) := by
    rcases hauth with h | h <;> simp [h]
  refine ⟨?_, ?_, ?_⟩
  · simp [verify_status, hne, hnone, optStrFalsy]
  · cases gw with
    | err m => simp [verify_callback, hnone]
    | ok st reference method amt ramt =>
      simp only [verify_callback, hnone]
      split_ifs <;> rfl
  · cases gw with
    | err m => simp [verify_callback, hnone]
    | ok st reference method amt ramt =>
      simp only [verify_callback, hnone]
      split_ifs <;> rfl

/-- Witness for C10 on the never-initiated fixture with a gateway that still
reports pending. -/
theorem C10_uninitiated_divergence_witness :
    verify_status paymentPending 1 .configured (.ok "pending" none none 0 0) =
      ⟨paymentPending, .notInitiated, false, 0, 0⟩ ∧
    (verify_callback paymentPending "TX-REF-42" .configured
        (.ok "pending" none none 0 0)).gatewayCalled = true ∧
    (verify_callback paymentPending "TX-REF-42" .configured
        (.ok "pending" none none 0 0)).referenceUsed = "TX-REF-42" :=
  C10_uninitiated_divergence paymentPending 1 "TX-REF-42" .configured
    (.ok "pending" none none 0 0) (Or.inl rfl) rfl

/-- C1: the claim demands that a second VerifyPayment under a gateway verdict
of success leaves exactly one mutation and exactly one success notification,
guarded by a check of the current status. `PaymentViewSet.verify_status`
performs no such check: re-verifying the already-completed fixture re-applies
the completed transition and queues a second confirmation email, so two
sequential successful verifications dispatch two notifications in total. -/
theorem C1_repeated_verify_two_notifications :
    (verify_status paymentInitiated 1 .configured gwSuccess).payment.status =
      .completed ∧
    (verify_status paymentInitiated 1 .configured gwSuccess).successEmails = 1 ∧
    (verify_status (verify_status paymentInitiated 1 .configured gwSuccess).payment
        1 .configured gwSuccess).payment.status = .completed ∧
    (verify_status (verify_status paymentInitiated 1 .configured gwSuccess).payment
        1 .configured gwSuccess).successEmails = 1 ∧
    (verify_status paymentInitiated 1 .configured gwSuccess).successEmails +
      (verify_status (verify_status paymentInitiated 1 .configured gwSuccess).payment
        1 .configured gwSuccess).successEmails = 2 := by
  refine ⟨rfl, rfl, rfl, rfl, rfl⟩

/-- C9: each email task retries at most max_retries = 3 times after a send
failure (so at most 4 attempts in total), the backoff countdown passed to
self.retry grows strictly with the retry count, and an exhausted task ends in
the logged give-up outcome instead of surfacing the failure to the caller of
`.delay`. -/
theorem C9_email_retry_policy :
    max_retries = 3 ∧
    (∀ failsAt, (runEmailTask failsAt).attempts ≤ max_retries + 1) ∧
    (∀ r, retryCountdown r < retryCountdown (r + 1)) ∧
    (∀ failsAt, (∀ r, failsAt r = true) →
      runEmailTask failsAt = .gaveUpLogged (max_retries + 1)) := by
  refine ⟨rfl, ?_, ?_, ?_⟩
  · intro failsAt
    cases h0 : failsAt 0 <;> cases h1 : failsAt 1 <;> cases h2 : failsAt 2 <;>
      cases h3 : failsAt 3 <;>
      simp [runEmailTask, runEmailTaskAux, max_retries, h0, h1, h2, h3,
        TaskResult.attempts]
  · intro r
    have h : 0 < 2 ^ r := pow_pos (by norm_num) r
    simp only [retryCountdown, pow_succ]
    omega
  · intro failsAt hall
    simp [runEmailTask, runEmailTaskAux, max_retries, hall 0, hall 1, hall 2, hall 3]

/-- Witness for C9: with every attempt failing, the task makes 4 attempts
(3 retries) and gives up with the logged outcome; the first backoff step
grows from 60 to 120 seconds. -/
theorem C9_email_retry_policy_witness :
    (runEmailTask (fun _ => true)).attempts ≤ max_retries + 1 ∧
    runEmailTask (fun _ => true) = .gaveUpLogged (max_retries + 1) ∧
    retryCountdown 0 < retryCountdown 1 :=
  ⟨C9_email_retry_policy.2.1 (fun _ => true),
   C9_email_retry_policy.2.2.2 (fun _ => true) (fun _ => rfl),
   C9_email_retry_policy.2.2.1 0⟩

end AlxTravel
